import Mathlib

/-!
A shallow embedding of `src/normalizer.py` (`MapUnicodesTextNormalizer`).

Characters are modelled as `Nat` code points; Python strings are `List Nat`
of scalar values (Python iterates strings by code point, so a
supplementary-plane character is a single element).  The Unicode
general-category classifier `unicodedata.category` is an external
collaborator of the program, so the engine is parametrised over a total
function `cat : Nat → String`; theorems about concrete categories take the
relevant facts of the Unicode Character Database as hypotheses, and
`catRef` instantiates them for the code points used in witnesses.
-/

namespace Normalizer

/-- The field `disallowed_unicode_category` of `MapUnicodesTextNormalizer`: the set of
Unicode general-category codes that are filtered out when not mapped,
in source order. -/
def disallowed_unicode_category : List String :=
  ["Cc", "Cf", "Mc", "Me", "Mn", "Pc", "Pd", "Pe", "Pf", "Pi", "Po", "Ps",
   "Sm", "So", "Zl", "Zp"]

/-- The field `unicode_map` of `MapUnicodesTextNormalizer`: the mapping table, as the
association list of (key code point, replacement code point) in source
order.  Every key of the Python dict literal is a one-character string and
every value is a one-character string, so each entry is a pair of scalar
values. -/
def unicode_map : List (Nat × Nat) := [
  (0xb4, 0xb4), (0x2dd, 0xb4), (0x2f6, 0xb4), (0x1ffd, 0xb4), (0xff40, 0xb4),
  (0x26, 0x26), (0x214b, 0x26), (0xfe60, 0x26), (0xff06, 0x26), (0x16b3a, 0x26),
  (0x27, 0x27), (0xff07, 0x27), (0x11a41, 0x27), (0x2a, 0x2a), (0x66d, 0x2a),
  (0x2042, 0x2a), (0x2051, 0x2a), (0x2055, 0x2a), (0x2217, 0x2a), (0x22c6, 0x2a),
  (0x22c7, 0x2a), (0x204e, 0x2a), (0xa60e, 0x2a), (0xa673, 0x2a), (0xfe61, 0x2a),
  (0xff0a, 0x2a), (0x3a, 0x3a), (0x2f8, 0x3a), (0x589, 0x3a), (0x5c3, 0x3a),
  (0x703, 0x3a), (0x704, 0x3a), (0x706, 0x3a), (0x707, 0x3a), (0x708, 0x3a),
  (0x709, 0x3a), (0x831, 0x3a), (0xfd2, 0x3a), (0x1361, 0x3a), (0x1366, 0x3a),
  (0x1367, 0x3a), (0x16ec, 0x3a), (0x1804, 0x3a), (0x1a1e, 0x3a), (0x1b5d, 0x3a),
  (0x205a, 0x3a), (0x205d, 0x3a), (0x205e, 0x3a), (0x2236, 0x3a), (0x22ee, 0x3a),
  (0x2982, 0x3a), (0x2999, 0x3a), (0x2af6, 0x3a), (0x2e3d, 0x3a), (0xa789, 0x3a),
  (0xfbbd, 0x3a), (0xfbbe, 0x3a), (0xfe13, 0x3a), (0xfe19, 0x3a), (0xfe30, 0x3a),
  (0xfe55, 0x3a), (0xff1a, 0x3a), (0x10af5, 0x3a), (0x1104a, 0x3a), (0x1123a, 0x3a),
  (0x112a9, 0x3a), (0x11ef7, 0x3a), (0x2c, 0x2c), (0x2db, 0x2c), (0x375, 0x2c),
  (0x60c, 0x2c), (0x66b, 0x2c), (0x66c, 0x2c), (0x201a, 0x2c), (0x201e, 0x2c),
  (0x2e12, 0x2c), (0x2e32, 0x2c), (0x2e34, 0x2c), (0x2e41, 0x2c), (0x3001, 0x2c),
  (0xaa5d, 0x2c), (0xfe45, 0x2c), (0xfe46, 0x2c), (0xfe50, 0x2c), (0xfe51, 0x2c),
  (0xff0c, 0x2c), (0xff64, 0x2c), (0x10100, 0x2c), (0x111c8, 0x2c), (0x1144d, 0x2c),
  (0x11c43, 0x2c), (0x16e97, 0x2c), (0x16e98, 0x2c), (0x40, 0x40), (0xfe6b, 0x40),
  (0xff20, 0x40), (0x3d, 0x3d), (0x2ed, 0x3d), (0x83a, 0x3d), (0x1400, 0x3d),
  (0x2017, 0x3d), (0x207c, 0x3d), (0x208c, 0x3d), (0x2242, 0x3d), (0x2243, 0x3d),
  (0x2244, 0x3d), (0x2245, 0x3d), (0x2246, 0x3d), (0x2247, 0x3d), (0x2248, 0x3d),
  (0x2249, 0x3d), (0x224a, 0x3d), (0x224b, 0x3d), (0x224c, 0x3d), (0x224d, 0x3d),
  (0x224e, 0x3d), (0x224f, 0x3d), (0x2250, 0x3d), (0x2251, 0x3d), (0x2252, 0x3d),
  (0x2253, 0x3d), (0x2254, 0x3d), (0x2255, 0x3d), (0x2256, 0x3d), (0x2257, 0x3d),
  (0x2258, 0x3d), (0x2259, 0x3d), (0x225a, 0x3d), (0x225b, 0x3d), (0x225c, 0x3d),
  (0x225d, 0x3d), (0x225e, 0x3d), (0x225f, 0x3d), (0x2260, 0x3d), (0x2261, 0x3d),
  (0x2262, 0x3d), (0x2263, 0x3d), (0x22cd, 0x3d), (0x2a66, 0x3d), (0x2a67, 0x3d),
  (0x2a6c, 0x3d), (0x2a6d, 0x3d), (0x2a6e, 0x3d), (0x2a6f, 0x3d), (0x2a70, 0x3d),
  (0x2a73, 0x3d), (0x2a74, 0x3d), (0x2a75, 0x3d), (0x2a76, 0x3d), (0x2a77, 0x3d),
  (0x2a78, 0x3d), (0x2aae, 0x3d), (0x2e40, 0x3d), (0xa4ff, 0x3d), (0xa78a, 0x3d),
  (0xfe66, 0x3d), (0xff1d, 0x3d), (0x110bf, 0x3d), (0x111de, 0x3d), (0x1123c, 0x3d),
  (0x1bc9f, 0x3d), (0x2e, 0x2e), (0xb7, 0x2e), (0x2d9, 0x2e), (0x387, 0x2e),
  (0x6d4, 0x2e), (0x701, 0x2e), (0x702, 0x2e), (0x830, 0x2e), (0xa76, 0x2e),
  (0xf0b, 0x2e), (0xf0c, 0x2e), (0x16eb, 0x2e), (0x1801, 0x2e), (0x1802, 0x2e),
  (0x2022, 0x2e), (0x2024, 0x2e), (0x2025, 0x2e), (0x2026, 0x2e), (0x2027, 0x2e),
  (0x2219, 0x2e), (0x22c5, 0x2e), (0x2981, 0x2e), (0x2e31, 0x2e), (0x2e33, 0x2e),
  (0x30fb, 0x2e), (0xfbb2, 0x2e), (0xfbb3, 0x2e), (0xfe52, 0x2e), (0xff0e, 0x2e),
  (0xff65, 0x2e), (0x10101, 0x2e), (0x1091f, 0x2e), (0x10a50, 0x2e), (0x10af4, 0x2e),
  (0x11049, 0x2e), (0x11174, 0x2e), (0x111c7, 0x2e), (0x115c4, 0x2e), (0x60, 0x60),
  (0x2f4, 0x60), (0x2f5, 0x60), (0x1fef, 0x60), (0x3e, 0x3e), (0xbb, 0x3e),
  (0x2c3, 0x3e), (0x2f2, 0x3e), (0x169b, 0x3e), (0x1808, 0x3e), (0x1809, 0x3e),
  (0x203a, 0x3e), (0x2265, 0x3e), (0x2267, 0x3e), (0x2269, 0x3e), (0x226b, 0x3e),
  (0x226f, 0x3e), (0x2271, 0x3e), (0x2273, 0x3e), (0x2275, 0x3e), (0x227b, 0x3e),
  (0x227d, 0x3e), (0x227f, 0x3e), (0x2281, 0x3e), (0x22b1, 0x3e), (0x22d7, 0x3e),
  (0x22d9, 0x3e), (0x22dd, 0x3e), (0x22df, 0x3e), (0x22e1, 0x3e), (0x22e7, 0x3e),
  (0x22e9, 0x3e), (0x232a, 0x3e), (0x276d, 0x3e), (0x276f, 0x3e), (0x2771, 0x3e),
  (0x27e9, 0x3e), (0x27eb, 0x3e), (0x297d, 0x3e), (0x298a, 0x3e), (0x2992, 0x3e),
  (0x2994, 0x3e), (0x29a0, 0x3e), (0x29fd, 0x3e), (0x2a20, 0x3e), (0x2a7a, 0x3e),
  (0x2a7c, 0x3e), (0x2a7e, 0x3e), (0x2a80, 0x3e), (0x2a82, 0x3e), (0x2a84, 0x3e),
  (0x2a86, 0x3e), (0x2a88, 0x3e), (0x2a8a, 0x3e), (0x2a8e, 0x3e), (0x2a96, 0x3e),
  (0x2a98, 0x3e), (0x2a9a, 0x3e), (0x2a9c, 0x3e), (0x2a9e, 0x3e), (0x2aa0, 0x3e),
  (0x2aa2, 0x3e), (0x2aad, 0x3e), (0x2ab0, 0x3e), (0x2ab2, 0x3e), (0x2ab4, 0x3e),
  (0x2ab6, 0x3e), (0x2ab8, 0x3e), (0x2aba, 0x3e), (0x2abc, 0x3e), (0x2af8, 0x3e),
  (0x2afa, 0x3e), (0x2e03, 0x3e), (0x2e05, 0x3e), (0x2e16, 0x3e), (0x3009, 0x3e),
  (0x300b, 0x3e), (0xfe3e, 0x3e), (0xfe40, 0x3e), (0xfe65, 0x3e), (0xff1e, 0x3e),
  (0x2d, 0x2d), (0x58a, 0x2d), (0x5be, 0x2d), (0x1680, 0x2d), (0x1806, 0x2d),
  (0x180a, 0x2d), (0x2010, 0x2d), (0x2011, 0x2d), (0x2012, 0x2d), (0x2013, 0x2d),
  (0x2014, 0x2d), (0x2015, 0x2d), (0x2043, 0x2d), (0x207b, 0x2d), (0x208b, 0x2d),
  (0x2212, 0x2d), (0x23af, 0x2d), (0x23bb, 0x2d), (0x29ff, 0x2d), (0x2a29, 0x2d),
  (0x2a2a, 0x2d), (0x2a2b, 0x2d), (0x2a2c, 0x2d), (0x2e3a, 0x2d), (0x2e3b, 0x2d),
  (0x30a0, 0x2d), (0xfe58, 0x2d), (0xfe63, 0x2d), (0xff0d, 0x2d), (0x1104b, 0x2d),
  (0x110be, 0x2d), (0x2ea, 0x300c), (0x2f9, 0x300c), (0x2fb, 0x300c), (0x221f, 0x300c),
  (0x2308, 0x300c), (0x230a, 0x300c), (0x23a1, 0x300c), (0x23a3, 0x300c), (0x2a3d, 0x300c),
  (0x2e22, 0x300c), (0x2e24, 0x300c), (0x300c, 0x300c), (0x300e, 0x300c), (0xa712, 0x300c),
  (0xa716, 0x300c), (0xfe41, 0x300c), (0xfe43, 0x300c), (0xff62, 0x300c), (0x7b, 0x7b),
  (0x23a8, 0x7b), (0x23de, 0x7b), (0x2774, 0x7b), (0x2983, 0x7b), (0xfe37, 0x7b),
  (0xfe5b, 0x7b), (0xff5b, 0x7b), (0x201c, 0x201c), (0x201f, 0x201c), (0x2036, 0x201c),
  (0x2037, 0x201c), (0x2e42, 0x201c), (0x301d, 0x201c), (0x309b, 0x201c), (0x28, 0x28),
  (0x2d3, 0x28), (0x2040, 0x28), (0x2054, 0x28), (0x207d, 0x28), (0x208d, 0x28),
  (0x23dc, 0x28), (0x2768, 0x28), (0x276a, 0x28), (0x2985, 0x28), (0x2987, 0x28),
  (0x2995, 0x28), (0x2e26, 0x28), (0x2e28, 0x28), (0xfd3e, 0x28), (0xfe35, 0x28),
  (0xfe59, 0x28), (0xff08, 0x28), (0xff5f, 0x28), (0x55d, 0x2018), (0x2018, 0x2018),
  (0x201b, 0x2018), (0x2035, 0x2018), (0x2e0c, 0x2018), (0x2e1c, 0x2018), (0x10ead, 0x2018),
  (0x5b, 0x5b), (0x2045, 0x5b), (0x23e0, 0x5b), (0x2772, 0x5b), (0x27e6, 0x5b),
  (0x27ec, 0x5b), (0x27ee, 0x5b), (0x298b, 0x5b), (0x298d, 0x5b), (0x298f, 0x5b),
  (0x2997, 0x5b), (0x3010, 0x5b), (0x3014, 0x5b), (0x3016, 0x5b), (0x3018, 0x5b),
  (0x301a, 0x5b), (0xfe17, 0x5b), (0xfe39, 0x5b), (0xfe3b, 0x5b), (0xfe47, 0x5b),
  (0xfe5d, 0x5b), (0xff3b, 0x5b), (0x3c, 0x3c), (0xab, 0x3c), (0x2c2, 0x3c),
  (0x2f1, 0x3c), (0x169c, 0x3c), (0x2039, 0x3c), (0x2222, 0x3c), (0x2264, 0x3c),
  (0x2266, 0x3c), (0x2268, 0x3c), (0x226a, 0x3c), (0x226e, 0x3c), (0x2270, 0x3c),
  (0x2272, 0x3c), (0x2274, 0x3c), (0x227a, 0x3c), (0x227c, 0x3c), (0x227e, 0x3c),
  (0x2280, 0x3c), (0x22b0, 0x3c), (0x22d6, 0x3c), (0x22d8, 0x3c), (0x22dc, 0x3c),
  (0x22de, 0x3c), (0x22e0, 0x3c), (0x22e6, 0x3c), (0x22e8, 0x3c), (0x2329, 0x3c),
  (0x276c, 0x3c), (0x276e, 0x3c), (0x2770, 0x3c), (0x27e8, 0x3c), (0x27ea, 0x3c),
  (0x297c, 0x3c), (0x2989, 0x3c), (0x2991, 0x3c), (0x2993, 0x3c), (0x29fc, 0x3c),
  (0x2a79, 0x3c), (0x2a7b, 0x3c), (0x2a7d, 0x3c), (0x2a7f, 0x3c), (0x2a81, 0x3c),
  (0x2a83, 0x3c), (0x2a85, 0x3c), (0x2a87, 0x3c), (0x2a89, 0x3c), (0x2a8d, 0x3c),
  (0x2a95, 0x3c), (0x2a97, 0x3c), (0x2a99, 0x3c), (0x2a9b, 0x3c), (0x2a9d, 0x3c),
  (0x2a9f, 0x3c), (0x2aa1, 0x3c), (0x2aa3, 0x3c), (0x2aac, 0x3c), (0x2aaf, 0x3c),
  (0x2ab1, 0x3c), (0x2ab3, 0x3c), (0x2ab5, 0x3c), (0x2ab7, 0x3c), (0x2ab9, 0x3c),
  (0x2abb, 0x3c), (0x2af7, 0x3c), (0x2af9, 0x3c), (0x2e02, 0x3c), (0x2e04, 0x3c),
  (0x3008, 0x3c), (0x300a, 0x3c), (0xfe3d, 0x3c), (0xfe3f, 0x3c), (0xfe64, 0x3c),
  (0xff1c, 0x3c), (0x5f, 0x5f), (0x2e0f, 0x5f), (0x2e10, 0x5f), (0x2e11, 0x5f),
  (0xfe4d, 0x5f), (0xfe4e, 0x5f), (0xfe4f, 0x5f), (0xff3f, 0x5f), (0xd7, 0xd7),
  (0x2df, 0xd7), (0x166e, 0xd7), (0x1c3d, 0xd7), (0x1c3e, 0xd7), (0x2a09, 0xd7),
  (0x2a2f, 0xd7), (0x2a30, 0xd7), (0x2a31, 0xd7), (0x2a32, 0xd7), (0x2e3c, 0xd7),
  (0x10102, 0xd7), (0x25, 0x25), (0x609, 0x25), (0x60a, 0x25), (0x66a, 0x25),
  (0x2030, 0x25), (0x2031, 0x25), (0x2052, 0x25), (0x2e13, 0x25), (0xfe6a, 0x25),
  (0xff05, 0x25), (0x2b, 0x2b), (0x16ed, 0x2b), (0x207a, 0x2b), (0x208a, 0x2b),
  (0x2214, 0x2b), (0x29fe, 0x2b), (0x2a22, 0x2b), (0x2a23, 0x2b), (0x2a24, 0x2b),
  (0x2a25, 0x2b), (0x2a26, 0x2b), (0x2a27, 0x2b), (0x2a28, 0x2b), (0xfe62, 0x2b),
  (0xff0b, 0x2b), (0x3f, 0x3f), (0xbf, 0x3f), (0x61f, 0x3f), (0x2047, 0x3f),
  (0x2048, 0x3f), (0x2049, 0x3f), (0x2e18, 0x3f), (0x2e2e, 0x3f), (0x2e4c, 0x3f),
  (0xfe16, 0x3f), (0xfe56, 0x3f), (0xff1f, 0x3f), (0x119e2, 0x3f), (0x22, 0x22),
  (0xff02, 0x22), (0x11944, 0x22), (0x5c, 0x5c), (0x2216, 0x5c), (0x29f5, 0x5c),
  (0x29f7, 0x5c), (0x29f9, 0x5c), (0x2cf9, 0x5c), (0x2cfb, 0x5c), (0xfe68, 0x5c),
  (0xff3c, 0x5c), (0x2e5, 0x300d), (0x2e9, 0x300d), (0x2fa, 0x300d), (0x2fc, 0x300d),
  (0x2fe, 0x300d), (0x2142, 0x300d), (0x2143, 0x300d), (0x2309, 0x300d), (0x230b, 0x300d),
  (0x23a4, 0x300d), (0x23a6, 0x300d), (0x2a3c, 0x300d), (0x2e23, 0x300d), (0x2e25, 0x300d),
  (0x300d, 0x300d), (0x300f, 0x300d), (0xfe42, 0x300d), (0xfe44, 0x300d), (0xff63, 0x300d),
  (0x7d, 0x7d), (0x23ac, 0x7d), (0x23df, 0x7d), (0x2775, 0x7d), (0x2984, 0x7d),
  (0xfe38, 0x7d), (0xfe5c, 0x7d), (0xff5d, 0x7d), (0x5f4, 0x201d), (0x1cd3, 0x201d),
  (0x201d, 0x201d), (0x2033, 0x201d), (0x2034, 0x201d), (0x2057, 0x201d), (0x2e17, 0x201d),
  (0x3003, 0x201d), (0x301e, 0x201d), (0x301f, 0x201d), (0x29, 0x29), (0x2d2, 0x29),
  (0x203f, 0x29), (0x207e, 0x29), (0x208e, 0x29), (0x23dd, 0x29), (0x2769, 0x29),
  (0x276b, 0x29), (0x2986, 0x29), (0x2988, 0x29), (0x2996, 0x29), (0x2e27, 0x29),
  (0x2e29, 0x29), (0xfd3f, 0x29), (0xfe36, 0x29), (0xfe5a, 0x29), (0xff09, 0x29),
  (0xff60, 0x29), (0x384, 0x2019), (0x55a, 0x2019), (0x55b, 0x2019), (0x5f3, 0x2019),
  (0x2019, 0x2019), (0x2032, 0x2019), (0x2e0d, 0x2019), (0x2e1d, 0x2019), (0x2cff, 0x2019),
  (0xfe10, 0x2019), (0xfe11, 0x2019), (0x5d, 0x5d), (0x2046, 0x5d), (0x23e1, 0x5d),
  (0x2773, 0x5d), (0x27e7, 0x5d), (0x27ed, 0x5d), (0x27ef, 0x5d), (0x298c, 0x5d),
  (0x298e, 0x5d), (0x2990, 0x5d), (0x2998, 0x5d), (0x3011, 0x5d), (0x3015, 0x5d),
  (0x3017, 0x5d), (0x3019, 0x5d), (0x301b, 0x5d), (0xfe18, 0x5d), (0xfe3a, 0x5d),
  (0xfe3c, 0x5d), (0xfe48, 0x5d), (0xfe5e, 0x5d), (0xff3d, 0x5d), (0x3b, 0x3b),
  (0x61b, 0x3b), (0x37e, 0x3b), (0x204f, 0x3b), (0x2a1f, 0x3b), (0x2a3e, 0x3b),
  (0x2e35, 0x3b), (0x2e44, 0x3b), (0x2e49, 0x3b), (0x2e4e, 0x3b), (0xa9c7, 0x3b),
  (0xfe14, 0x3b), (0xfe54, 0x3b), (0xff1b, 0x3b), (0x1145a, 0x3b), (0xa7, 0xa7),
  (0xb6, 0xa7), (0x204b, 0xa7), (0x2f, 0x2f), (0x60d, 0x2f), (0x1735, 0x2f),
  (0x1736, 0x2f), (0x2044, 0x2f), (0x2215, 0x2f), (0x29f6, 0x2f), (0x29f8, 0x2f),
  (0x2afb, 0x2f), (0x2afd, 0x2f), (0x2cfa, 0x2f), (0x2cfc, 0x2f), (0x2d70, 0x2f),
  (0x2e4a, 0x2f), (0xa6f3, 0x2f), (0xa6f4, 0x2f), (0xff0f, 0x2f), (0x7e, 0x7e),
  (0x2dc, 0x7e), (0x2f7, 0x7e), (0x55c, 0x7e), (0x1fc0, 0x7e), (0x2053, 0x7e),
  (0x223b, 0x7e), (0x223c, 0x7e), (0x223d, 0x7e), (0x223e, 0x7e), (0x223f, 0x7e),
  (0x2241, 0x7e), (0x2a6a, 0x7e), (0x2a6b, 0x7e), (0x2e09, 0x7e), (0x2e0a, 0x7e),
  (0x301c, 0x7e), (0x3030, 0x7e), (0xff5e, 0x7e)
]

/-- First-match lookup in an association list.  The dict literal has no
duplicate keys, so this agrees with Python dict lookup on `unicode_map`. -/
def lookupAssoc (c : Nat) : List (Nat × Nat) → Option Nat
  | [] => none
  | (k, v) :: rest => if c = k then some v else lookupAssoc c rest

/-- Python `self.unicode_map.get(char)`. -/
def mapGet (c : Nat) : Option Nat :=
  lookupAssoc c unicode_map

/-- Method `__is_unicode_category_allowed`: the category of `char` is not in
`disallowed_unicode_category`. -/
def is_unicode_category_allowed (cat : Nat → String) (c : Nat) : Bool :=
  decide (cat c ∉ disallowed_unicode_category)

/-- Method `__replace_character`: mapped characters are replaced, unmapped
characters of an allowed category pass through, everything else is
dropped.  A Python string of length 0 or 1 becomes a `List Nat` of length
0 or 1. -/
def replace_character (cat : Nat → String) (c : Nat) : List Nat :=
  match mapGet c with
  | some norm_char => [norm_char]
  | none => if is_unicode_category_allowed cat c then [c] else []

/-- Method `normalize_text`: concatenation of the per-character results, in input
order. -/
def normalize_text (cat : Nat → String) (text : List Nat) : List Nat :=
  text.flatMap (replace_character cat)

/-- Modelled from the spec: the external Unicode general-category
collaborator (`unicodedata.category`, from the Python standard library,
not part of this repository), restricted to the code points the concrete
scenarios use; every other code point is treated as a lowercase letter. -/
def catRef (c : Nat) : String :=
  if c = 0x0 then "Cc"
  else if c = 0x20 then "Zs"
  else if c = 0x21 then "Po"
  else if c = 0x23 then "Po"
  else if c = 0x24 then "Sc"
  else if c = 0x7c then "Sm"
  else if c = 0x2013 then "Pd"
  else "Ll"

/-- A well-formed Unicode scalar value: below 0x110000 and not a
surrogate. -/
def isValidScalar (c : Nat) : Prop :=
  c < 0x110000 ∧ (c < 0xd800 ∨ 0xdfff < c)

instance (c : Nat) : Decidable (isValidScalar c) := by
  unfold isValidScalar
  infer_instance

/-- A variant of `__replace_character` in which the external category
collaborator may fail (modelling an exception from `unicodedata.category`
on malformed input); the engine itself introduces no failure. -/
def replace_characterE (cat : Nat → Option String) (c : Nat) :
    Except Unit (List Nat) :=
  match mapGet c with
  | some norm_char => Except.ok [norm_char]
  | none =>
    match cat c with
    | some k =>
      if k ∈ disallowed_unicode_category then Except.ok [] else Except.ok [c]
    | none => Except.error ()

/-- Composition of `normalize_text` over the failure-aware per-character function. -/
def normalize_textE (cat : Nat → Option String) :
    List Nat → Except Unit (List Nat)
  | [] => Except.ok []
  | c :: rest =>
    match replace_characterE cat c, normalize_textE cat rest with
    | Except.ok h, Except.ok t => Except.ok (h ++ t)
    | Except.error e, _ => Except.error e
    | _, Except.error e => Except.error e

set_option maxRecDepth 20000

/-- The distinct replacement characters occurring as values of
`unicode_map`, in order of first appearance. -/
def mapValues : List Nat :=
  [0xb4, 0x26, 0x27, 0x2a, 0x3a, 0x2c, 0x40, 0x3d, 0x2e, 0x60, 0x3e, 0x2d,
   0x300c, 0x7b, 0x201c, 0x28, 0x2018, 0x5b, 0x3c, 0x5f, 0xd7, 0x25, 0x2b,
   0x3f, 0x22, 0x5c, 0x300d, 0x7d, 0x201d, 0x29, 0x2019, 0x5d, 0x3b, 0xa7,
   0x2f, 0x7e]

/-- A code point is a value (mapping target) of the table. -/
def isMapValue (c : Nat) : Prop :=
  ∃ p ∈ unicode_map, p.2 = c

instance (c : Nat) : Decidable (isMapValue c) := by
  unfold isMapValue
  infer_instance

set_option maxHeartbeats 2000000 in
/-- Every distinct replacement character is itself a key that maps to
itself. -/
theorem mapValues_self_mapped : ∀ c ∈ mapValues, mapGet c = some c := by
  decide

set_option maxHeartbeats 2000000 in
/-- Every entry of the table has its value among `mapValues`. -/
theorem unicode_map_snd_mem : ∀ p ∈ unicode_map, p.2 ∈ mapValues := by
  decide

/-- A successful association-list lookup produces a pair of the list. -/
theorem lookupAssoc_mem {c v : Nat} :
    ∀ {l : List (Nat × Nat)}, lookupAssoc c l = some v → (c, v) ∈ l := by
  intro l
  induction l with
  | nil => intro h; exact absurd h (by simp [lookupAssoc])
  | cons p rest ih =>
    intro h
    rw [lookupAssoc] at h
    by_cases hc : c = p.1
    · rw [if_pos hc] at h
      have hv : p.2 = v := Option.some.inj h
      have hp : (c, v) = p := by rw [hc, ← hv]
      rw [hp]
      exact List.mem_cons_self _ _
    · rw [if_neg hc] at h
      exact List.mem_cons_of_mem _ (ih h)

/-- Every replacement character emitted by the table is a fixed point of
the table lookup. -/
theorem mapGet_value_fixed {c v : Nat} (h : mapGet c = some v) :
    mapGet v = some v :=
  mapValues_self_mapped v (unicode_map_snd_mem (c, v) (lookupAssoc_mem h))

/-- Normalizing the empty string gives the empty string. -/
theorem normalize_text_nil (cat : Nat → String) :
    normalize_text cat [] = [] := rfl

/-- Unfolding one character of `normalize_text`. -/
theorem normalize_text_cons (cat : Nat → String) (c : Nat) (rest : List Nat) :
    normalize_text cat (c :: rest) =
      replace_character cat c ++ normalize_text cat rest := rfl

/-- Normalization distributes over concatenation. -/
theorem normalize_text_append (cat : Nat → String) (a b : List Nat) :
    normalize_text cat (a ++ b) =
      normalize_text cat a ++ normalize_text cat b := by
  simp [normalize_text]

/-- A mapped character is replaced by its table value. -/
theorem replace_character_mapped (cat : Nat → String) {c v : Nat}
    (h : mapGet c = some v) : replace_character cat c = [v] := by
  rw [replace_character, h]

/-- An unmapped character of a disallowed category is dropped. -/
theorem replace_character_dropped (cat : Nat → String) {c : Nat}
    (h1 : mapGet c = none) (h2 : cat c ∈ disallowed_unicode_category) :
    replace_character cat c = [] := by
  rw [replace_character, h1]
  simp [is_unicode_category_allowed, h2]

/-- An unmapped character of an allowed category passes through. -/
theorem replace_character_pass (cat : Nat → String) {c : Nat}
    (h1 : mapGet c = none) (h2 : cat c ∉ disallowed_unicode_category) :
    replace_character cat c = [c] := by
  rw [replace_character, h1]
  simp [is_unicode_category_allowed, h2]

/-- C1: for every single character, the per-character decision is taken in
this order: a key of the mapping table is replaced by its table value
regardless of its category (a mapped character is never dropped);
otherwise a character whose category is in the disallowed set emits
nothing; otherwise the character is emitted unchanged. -/
theorem C1_replace_character_decision (cat : Nat → String) (c : Nat) :
    (∀ v, mapGet c = some v → replace_character cat c = [v]) ∧
    (mapGet c = none → cat c ∈ disallowed_unicode_category →
      replace_character cat c = []) ∧
    (mapGet c = none → cat c ∉ disallowed_unicode_category →
      replace_character cat c = [c]) :=
  ⟨fun _ h => replace_character_mapped cat h,
   fun h1 h2 => replace_character_dropped cat h1 h2,
   fun h1 h2 => replace_character_pass cat h1 h2⟩

/-- Witness for C1: the En Dash U+2013 is a table key whose category
(per the Unicode database, "Pd") is in the disallowed set, yet it is
replaced by Hyphen-Minus rather than dropped. -/
theorem C1_replace_character_decision_witness :
    catRef 0x2013 ∈ disallowed_unicode_category ∧
    replace_character catRef 0x2013 = [0x2d] :=
  ⟨by decide,
   (C1_replace_character_decision catRef 0x2013).1 0x2d (by decide)⟩

/-- C2 counterexample: the claim that the disallowed set is exactly the
fifteen codes Cc, Cf, Mc, Me, Mn, Pc, Pd, Pe, Pf, Pi, Po, Sm, So, Zl, Zp
fails: the source also lists "Ps". -/
theorem C2_fifteen_counterexample :
    "Ps" ∈ disallowed_unicode_category ∧
    "Ps" ∉ ["Cc", "Cf", "Mc", "Me", "Mn", "Pc", "Pd", "Pe", "Pf", "Pi",
            "Po", "Sm", "So", "Zl", "Zp"] := by
  constructor
  · decide
  · decide

/-- C2 (amended): the disallowed set contains exactly the sixteen codes
Cc, Cf, Mc, Me, Mn, Pc, Pd, Pe, Pf, Pi, Po, Ps, Sm, So, Zl, Zp. -/
theorem C2_disallowed_sixteen (s : String) :
    s ∈ disallowed_unicode_category ↔
      s ∈ ["Cc", "Cf", "Mc", "Me", "Mn", "Pc", "Pd", "Pe", "Pf", "Pi",
           "Po", "Ps", "Sm", "So", "Zl", "Zp"] :=
  Iff.rfl

/-- C3: a string whose every character is either a mapping target of the
table, or both absent from the keys and of an allowed category, is a
fixed point of `normalize_text`. -/
theorem C3_normalize_fixed (cat : Nat → String) (s : List Nat)
    (h : ∀ c ∈ s, isMapValue c ∨
      (mapGet c = none ∧ cat c ∉ disallowed_unicode_category)) :
    normalize_text cat s = s := by
  induction s with
  | nil => rfl
  | cons c rest ih =>
    rw [normalize_text_cons, ih (fun x hx => h x (List.mem_cons_of_mem _ hx))]
    rcases h c (List.mem_cons_self _ _) with ⟨p, hp, hpc⟩ | ⟨h1, h2⟩
    · have hm : mapGet c = some c :=
        mapValues_self_mapped c (hpc ▸ unicode_map_snd_mem p hp)
      rw [replace_character_mapped cat hm]
      rfl
    · rw [replace_character_pass cat h1 h2]
      rfl

/-- Witness for C3: a hyphen (a mapping target) followed by a lowercase
letter (unmapped, category "Ll") is left unchanged. -/
theorem C3_normalize_fixed_witness :
    normalize_text catRef [0x2d, 0x61] = [0x2d, 0x61] :=
  C3_normalize_fixed catRef [0x2d, 0x61] (by decide)

/-- C5: normalization never lengthens a string, each input character
yields zero or one output characters, and output order follows input
order in that normalization distributes over concatenation. -/
theorem C5_length_nonincrease (cat : Nat → String) (s : List Nat) :
    (normalize_text cat s).length ≤ s.length ∧
    (∀ c, (replace_character cat c).length ≤ 1) ∧
    (∀ a b, normalize_text cat (a ++ b) =
      normalize_text cat a ++ normalize_text cat b) := by
  have hone : ∀ c, (replace_character cat c).length ≤ 1 := by
    intro c
    rw [replace_character]
    cases mapGet c with
    | some v => simp
    | none =>
      cases ha : is_unicode_category_allowed cat c <;> simp
  refine ⟨?_, hone, normalize_text_append cat⟩
  induction s with
  | nil => simp [normalize_text_nil]
  | cons c rest ih =>
    rw [normalize_text_cons, List.length_append, List.length_cons]
    have := hone c
    omega

/-- C9: normalization is idempotent on every input, because every
character it can emit (a table value, or an unmapped character of an
allowed category) is a fixed point of the per-character decision. -/
theorem C9_normalize_idempotent (cat : Nat → String) (s : List Nat) :
    normalize_text cat (normalize_text cat s) = normalize_text cat s := by
  induction s with
  | nil => rfl
  | cons c rest ih =>
    rw [normalize_text_cons, normalize_text_append, ih]
    congr 1
    cases hm : mapGet c with
    | some v =>
      rw [replace_character_mapped cat hm, normalize_text_cons,
        replace_character_mapped cat (mapGet_value_fixed hm)]
      rfl
    | none =>
      by_cases ha : cat c ∈ disallowed_unicode_category
      · rw [replace_character_dropped cat hm ha]
        rfl
      · rw [replace_character_pass cat hm ha, normalize_text_cons,
          replace_character_pass cat hm ha]
        rfl

/-- Failure-aware category collaborator used in witnesses: defined on
every well-formed scalar value, failing elsewhere. -/
def catRefE (c : Nat) : Option String :=
  if isValidScalar c then some (catRef c) else none

/-- The failure-aware per-character function succeeds whenever the
category collaborator is defined at the character (and without consulting
it at all when the character is mapped). -/
theorem replace_characterE_ok (cat : Nat → Option String) {c : Nat}
    (h : (cat c).isSome) : ∃ u, replace_characterE cat c = Except.ok u := by
  rw [replace_characterE]
  cases mapGet c with
  | some v => exact ⟨[v], rfl⟩
  | none =>
    cases hc : cat c with
    | some k =>
      by_cases hk : k ∈ disallowed_unicode_category
      · exact ⟨[], by simp [hk]⟩
      · exact ⟨[c], by simp [hk]⟩
    | none => rw [hc] at h; exact absurd h (by simp)

/-- C4: normalization is total on well-formed Unicode input: whenever the
external category collaborator is defined on all well-formed scalar
values and the input consists of well-formed scalar values, the
failure-aware engine succeeds; the empty string yields the empty string,
and a supplementary-plane code point such as U+16B3A is one character,
handled by a single table lookup. -/
theorem C4_normalize_total (cat : Nat → Option String)
    (hcat : ∀ c, isValidScalar c → (cat c).isSome) (s : List Nat)
    (hs : ∀ c ∈ s, isValidScalar c) :
    (∃ t, normalize_textE cat s = Except.ok t) ∧
    normalize_textE cat [] = Except.ok [] ∧
    normalize_textE cat [0x16b3a] = Except.ok [0x26] := by
  refine ⟨?_, rfl, ?_⟩
  · induction s with
    | nil => exact ⟨[], rfl⟩
    | cons c rest ih =>
      obtain ⟨t, ht⟩ := ih (fun x hx => hs x (List.mem_cons_of_mem _ hx))
      obtain ⟨u, hu⟩ :=
        replace_characterE_ok cat (hcat c (hs c (List.mem_cons_self _ _)))
      exact ⟨u ++ t, by rw [normalize_textE, hu, ht]⟩
  · have hm : mapGet 0x16b3a = some 0x26 := by decide
    rw [normalize_textE, normalize_textE, replace_characterE, hm]
    rfl

/-- Witness for C4: the engine succeeds on a two-character string whose
first character lies outside the Basic Multilingual Plane. -/
theorem C4_normalize_total_witness :
    (∃ t, normalize_textE catRefE [0x16b3a, 0x61] = Except.ok t) ∧
    normalize_textE catRefE [] = Except.ok [] ∧
    normalize_textE catRefE [0x16b3a] = Except.ok [0x26] :=
  C4_normalize_total catRefE
    (fun c h => by rw [catRefE, if_pos h]; rfl)
    [0x16b3a, 0x61] (by decide)

/-- C6: an unmapped character of category Cc is deleted wherever it
occurs: normalizing a string equals normalizing the string with every
occurrence of that character removed, all other characters treated as
they would be without it. -/
theorem C6_Cc_removed (cat : Nat → String) (c : Nat) (h1 : cat c = "Cc")
    (h2 : mapGet c = none) (s : List Nat) :
    normalize_text cat s = normalize_text cat (s.filter (fun x => x != c)) := by
  have hdrop : replace_character cat c = [] :=
    replace_character_dropped cat h2 (by rw [h1]; decide)
  induction s with
  | nil => rfl
  | cons a rest ih =>
    by_cases hac : a = c
    · subst hac
      rw [normalize_text_cons, hdrop, List.nil_append, ih,
        List.filter_cons_of_neg (by simp)]
    · rw [normalize_text_cons, List.filter_cons_of_pos (by simp [hac]),
        normalize_text_cons, ih]

/-- Witness for C6: the control character U+0000 is removed from between
two letters, leaving them to be processed as without it. -/
theorem C6_Cc_removed_witness :
    normalize_text catRef [0x61, 0x0, 0x62] =
      normalize_text catRef ([0x61, 0x0, 0x62].filter (fun x => x != 0x0)) :=
  C6_Cc_removed catRef 0x0 rfl (by decide) [0x61, 0x0, 0x62]

/-- C7: an unmapped character of category Zs or Sc passes through
unchanged, because neither code is in the disallowed set. -/
theorem C7_Zs_Sc_passthrough (cat : Nat → String) (c : Nat)
    (hcat : cat c = "Zs" ∨ cat c = "Sc") (hmap : mapGet c = none) :
    replace_character cat c = [c] ∧ normalize_text cat [c] = [c] ∧
    "Zs" ∉ disallowed_unicode_category ∧
    "Sc" ∉ disallowed_unicode_category := by
  have hnotin : cat c ∉ disallowed_unicode_category := by
    rcases hcat with h | h <;> rw [h] <;> decide
  refine ⟨replace_character_pass cat hmap hnotin, ?_, by decide, by decide⟩
  rw [normalize_text_cons, replace_character_pass cat hmap hnotin]
  rfl

/-- Witness for C7: the ordinary space U+0020 (category Zs, not a table
key) passes through unchanged. -/
theorem C7_Zs_Sc_passthrough_witness :
    replace_character catRef 0x20 = [0x20] ∧
    normalize_text catRef [0x20] = [0x20] ∧
    "Zs" ∉ disallowed_unicode_category ∧
    "Sc" ∉ disallowed_unicode_category :=
  C7_Zs_Sc_passthrough catRef 0x20 (Or.inl rfl) (by decide)

/-- C8: the table maps En Dash U+2013 and Em Dash U+2014 to Hyphen-Minus
and Fullwidth Comma U+FF0C to the ASCII comma; hence any occurrence of
U+2013 (resp. U+FF0C) in any context is replaced by the hyphen (resp.
comma), and the string foo U+2014 bar normalizes to foo-bar whenever the
letters have allowed categories (per the Unicode database, "Ll"). -/
theorem C8_dash_comma (cat : Nat → String)
    (hletters : ∀ c ∈ [0x66, 0x6f, 0x62, 0x61, 0x72],
      cat c ∉ disallowed_unicode_category) :
    mapGet 0x2013 = some 0x2d ∧ mapGet 0x2014 = some 0x2d ∧
    mapGet 0xff0c = some 0x2c ∧
    (∀ s t, normalize_text cat (s ++ 0x2013 :: t) =
      normalize_text cat s ++ 0x2d :: normalize_text cat t) ∧
    (∀ s t, normalize_text cat (s ++ 0xff0c :: t) =
      normalize_text cat s ++ 0x2c :: normalize_text cat t) ∧
    normalize_text cat [0x66, 0x6f, 0x6f, 0x2014, 0x62, 0x61, 0x72] =
      [0x66, 0x6f, 0x6f, 0x2d, 0x62, 0x61, 0x72] := by
  have h13 : mapGet 0x2013 = some 0x2d := by decide
  have h14 : mapGet 0x2014 = some 0x2d := by decide
  have hfc : mapGet 0xff0c = some 0x2c := by decide
  have hpass : ∀ c ∈ [0x66, 0x6f, 0x62, 0x61, 0x72],
      mapGet c = none → replace_character cat c = [c] :=
    fun c hc hn => replace_character_pass cat hn (hletters c hc)
  refine ⟨h13, h14, hfc, ?_, ?_, ?_⟩
  · intro s t
    rw [normalize_text_append, normalize_text_cons,
      replace_character_mapped cat h13]
    rfl
  · intro s t
    rw [normalize_text_append, normalize_text_cons,
      replace_character_mapped cat hfc]
    rfl
  · rw [normalize_text_cons, normalize_text_cons, normalize_text_cons,
      normalize_text_cons, normalize_text_cons, normalize_text_cons,
      normalize_text_cons,
      hpass 0x66 (by decide) (by decide), hpass 0x6f (by decide) (by decide),
      replace_character_mapped cat h14,
      hpass 0x62 (by decide) (by decide), hpass 0x61 (by decide) (by decide),
      hpass 0x72 (by decide) (by decide)]
    rfl

/-- Witness for C8: with the reference categories, the string
foo U+2014 bar normalizes to foo-bar. -/
theorem C8_dash_comma_witness :
    normalize_text catRef [0x66, 0x6f, 0x6f, 0x2014, 0x62, 0x61, 0x72] =
      [0x66, 0x6f, 0x6f, 0x2d, 0x62, 0x61, 0x72] :=
  (C8_dash_comma catRef (by decide)).2.2.2.2.2

/-- C10: the printable ASCII characters exclamation mark U+0021, number
sign U+0023 (category Po) and vertical line U+007C (category Sm) are not
table keys and their categories are disallowed, so they are silently
deleted; in particular a string holding only an exclamation mark
normalizes to the empty string. -/
theorem C10_ascii_deleted (cat : Nat → String) (h1 : cat 0x21 = "Po")
    (h2 : cat 0x23 = "Po") (h3 : cat 0x7c = "Sm") :
    mapGet 0x21 = none ∧ mapGet 0x23 = none ∧ mapGet 0x7c = none ∧
    replace_character cat 0x21 = [] ∧ replace_character cat 0x23 = [] ∧
    replace_character cat 0x7c = [] ∧ normalize_text cat [0x21] = [] := by
  have m1 : mapGet 0x21 = none := by decide
  have m2 : mapGet 0x23 = none := by decide
  have m3 : mapGet 0x7c = none := by decide
  have r1 : replace_character cat 0x21 = [] :=
    replace_character_dropped cat m1 (by rw [h1]; decide)
  refine ⟨m1, m2, m3, r1, ?_, ?_, ?_⟩
  · exact replace_character_dropped cat m2 (by rw [h2]; decide)
  · exact replace_character_dropped cat m3 (by rw [h3]; decide)
  · rw [normalize_text_cons, r1]
    rfl

/-- Witness for C10: with the reference categories, normalizing the
one-character string holding an exclamation mark yields the empty
string. -/
theorem C10_ascii_deleted_witness :
    normalize_text catRef [0x21] = [] :=
  (C10_ascii_deleted catRef rfl rfl rfl).2.2.2.2.2.2

end Normalizer
